import Mathlib

set_option maxRecDepth 8000

namespace Oneclick

/-!
Verification model of the resilient execution orchestrator in
`oneclick_daily_run.py` (plus the atomic status writer in
`app/ops/update_pipeline_status.py`).  Paths are modelled as a parent
directory (list of components) plus a final name (list of characters),
mirroring `pathlib.Path`; file contents relevant to validation are modelled
as size, parsed CSV header row and SHA-256 digest.
-/

/-- Model of a filesystem path: parent directory components plus the final
component (`pathlib.Path.name`), kept as a character list so that the
stem/suffix arithmetic of `pathlib` can be stated exactly. -/
structure FsPath where
  dir : List String
  name : List Char
deriving DecidableEq, Repr

/-- Python `str.rfind(ch)` over a character list: the greatest index at which
`ch` occurs, if any. -/
def rfindChar (ch : Char) : List Char → Option Nat
  | [] => none
  | a :: as =>
    match rfindChar ch as with
    | some i => some (i + 1)
    | none => if a = ch then some 0 else none

/-- pathlib's split of a final component into (stem, suffix): the suffix is
`name[i:]` for the last dot index `i` when `0 < i < len(name) - 1`, otherwise
the suffix is empty and the stem is the whole name. -/
def pySplitName (name : List Char) : List Char × List Char :=
  match rfindChar '.' name with
  | some i => if 0 < i ∧ i < name.length - 1 then (name.take i, name.drop i) else (name, [])
  | none => (name, [])

/-- pathlib `Path.stem` of a final component. -/
def pyStem (name : List Char) : List Char := (pySplitName name).1

/-- pathlib `Path.suffix` of a final component. -/
def pySuffix (name : List Char) : List Char := (pySplitName name).2

/-- Model of `Path.with_suffix`: the parent is kept and the name becomes
stem + new suffix (the uses in the source always pass a non-empty suffix). -/
def pyWithSuffix (p : FsPath) (suf : List Char) : FsPath :=
  FsPath.mk p.dir (pyStem p.name ++ suf)

/-- Source `_tagged_path`: `out.csv -> out__FALLBACK.csv`; a name without an
extension gets the tag appended (`out -> out__FALLBACK`).  The parent
directory is unchanged (`Path.with_name`). -/
def taggedPath (p : FsPath) (tag : List Char) : FsPath :=
  if pySuffix p.name ≠ [] then
    FsPath.mk p.dir (pyStem p.name ++ tag ++ pySuffix p.name)
  else
    FsPath.mk p.dir (p.name ++ tag)

/-- Characters Python's `str.strip("._-")` removes at either end, and the set
kept verbatim by the sanitizer. -/
def dotUnderHyphen (c : Char) : Bool := c = '.' || c = '_' || c = '-'

/-- Python `str.strip(set)`: drop characters satisfying `p` from both ends. -/
def stripSet (p : Char → Bool) (l : List Char) : List Char :=
  ((l.dropWhile p).reverse.dropWhile p).reverse

/-- Source `_sanitize_token`: keep alphanumerics and `.` `_` `-`, replace every
other character by `_`, strip leading/trailing `._-`, substitute `NA` when
nothing remains, and truncate to `maxLen` characters.  Python's Unicode
`str.isalnum` is abstracted as the parameter `isalnum`. -/
def sanitizeToken (isalnum : Char → Bool) (maxLen : Nat) (s : List Char) : List Char :=
  (if stripSet dotUnderHyphen
        (s.map (fun ch => if isalnum ch || dotUnderHyphen ch then ch else '_')) = []
   then ['N', 'A']
   else stripSet dotUnderHyphen
        (s.map (fun ch => if isalnum ch || dotUnderHyphen ch then ch else '_'))).take maxLen

/-- Rendering of a path as a string, as `str(path)` does when the run key and
the status records are built. -/
def pathStr (p : FsPath) : String :=
  String.intercalate "/" (p.dir ++ [p.name.asString])

/-- Source `_stable_key`: `f"{mode}||{input_path}||{input_sha256}||{top20}"`,
with the empty string for an absent top20 path. -/
def stableKey (mode : String) (inputPath : FsPath) (inputSha256 : String)
    (top20Path : Option FsPath) : String :=
  mode ++ "||" ++ pathStr inputPath ++ "||" ++ inputSha256 ++ "||" ++
    (match top20Path with | some p => pathStr p | none => "")

/-- Characters removed by Python's default `str.strip()` (ASCII whitespace;
the digests being stripped are hex strings, so this is exact for them). -/
def isPyWs (c : Char) : Bool :=
  c = ' ' || c = '\t' || c = '\n' || c = '\r' || c = '\x0b' || c = '\x0c'

/-- Python `str.strip()` on a string value. -/
def pyStrip (s : String) : String := (stripSet isPyWs s.data).asString

/-- Model of the previous `RUN_STATUS.json` as read by
`_read_prev_status_json`: a missing or malformed file yields the empty dict,
i.e. every `get(k, "")` returns the empty string — represented by a record
whose fields are all `""`. -/
structure PrevStatus where
  run_key : String
  result : String
  output_sha256 : String
  top20_sha256 : String
deriving DecidableEq, Repr

/-- Outcome of `_stability_compare_or_fail`: either it returns normally or it
calls `_stability_fail` with exit code 20 (output hash changed) or 21 (top20
hash changed). -/
inductive StabilityResult
  | ok
  | divergence (exitCode : Nat)
deriving DecidableEq, Repr

/-- Source `_stability_compare_or_fail` as a pure decision function.  The
nested Python conditionals `if prev_out_sha: ... if now != prev:` are
flattened into single conjunctions with the same observable behaviour. -/
def stabilityCompare (prev : PrevStatus) (runKey : String) (nowOutSha : String)
    (top20Present : Bool) (nowTopSha : String) : StabilityResult :=
  if prev.run_key ≠ runKey then .ok
  else if prev.result ≠ "SUCCESS" then .ok
  else if pyStrip prev.output_sha256 ≠ "" ∧ nowOutSha ≠ pyStrip prev.output_sha256 then
    .divergence 20
  else if top20Present = true ∧ pyStrip prev.top20_sha256 ≠ "" ∧
      nowTopSha ≠ pyStrip prev.top20_sha256 then
    .divergence 21
  else .ok

/-- Observable content of a file, as far as the orchestrator inspects it:
byte size, the first CSV row as produced by `csv.reader` (a list of cells),
and the SHA-256 hex digest of the bytes. -/
structure FileData where
  size : Nat
  header : List (Option (List Char))
  sha256 : String

/-- A file system snapshot: which paths exist and with what content. -/
def FileModel := FsPath → Option FileData

/-- Digest of a file as `_sha256_file` computes it; the orchestrator only
calls it on paths whose existence was just validated, so the `none` branch is
never exercised in the flows below. -/
def sha256File (fs : FileModel) (p : FsPath) : String :=
  match fs p with
  | some d => d.sha256
  | none => ""

/-- Source `_check_outputs_or_raise`: the output must exist and be non-empty,
and so must the top20 artifact when a top20 path is declared. -/
def checkOutputsOrRaise (fs : FileModel) (outputPath : FsPath) (top20Path : Option FsPath) :
    Except String Unit :=
  match fs outputPath with
  | none => .error "Output file not created"
  | some d =>
    if d.size = 0 then .error "Output file is empty"
    else
      match top20Path with
      | none => .ok ()
      | some t =>
        match fs t with
        | none => .error "Top20 file not created"
        | some d2 => if d2.size = 0 then .error "Top20 file is empty" else .ok ()

/-- Source `_read_csv_header_cols`: skip `None` cells, strip whitespace from
each cell, and strip a leading byte-order mark from the cell at index 0. -/
def readCsvHeaderCols (header : List (Option (List Char))) : List (List Char) :=
  header.enum.filterMap fun ic =>
    match ic.2 with
    | none => none
    | some c =>
      some (if ic.1 = 0 then (stripSet isPyWs c).dropWhile (fun ch => ch = '\uFEFF')
            else stripSet isPyWs c)

/-- Source `REQUIRED_OUTPUT_COLS`. -/
def requiredOutputCols : List (List Char) :=
  ["code".data, "market".data, "close".data, "trade_value".data,
   "light_full".data, "light_decision".data, "light_top20".data]

/-- Source `_assert_output_schema`: a non-CSV suffix passes vacuously;
otherwise every required column must appear among the header cells. -/
def assertOutputSchema (fs : FileModel) (outputPath : FsPath)
    (requiredCols : List (List Char)) : Except String Unit :=
  if (pySuffix outputPath.name).map Char.toLower ≠ ".csv".data then .ok ()
  else
    match fs outputPath with
    | none => .error "cannot open output"
    | some d =>
      if requiredCols.filter (fun c => !decide (c ∈ readCsvHeaderCols d.header)) = [] then
        .ok ()
      else .error "Output schema assertion failed: missing required columns"

/-- The validation sequence the orchestrator runs inside its try-block after
a tier exits 0: `_check_outputs_or_raise` then `_assert_output_schema`. -/
def validateOutputs (fs : FileModel) (outputPath : FsPath) (top20Path : Option FsPath)
    (requiredCols : List (List Char)) : Except String Unit :=
  match checkOutputsOrRaise fs outputPath top20Path with
  | .error e => .error e
  | .ok _ => assertOutputSchema fs outputPath requiredCols

/-- One row of `run_summary.csv`: the timestamp cell plus the remaining
flattened fields. -/
structure LedgerRow where
  timestamp : String
  fields : List (String × String)
deriving DecidableEq, Repr

/-- The per-row retention test of `_append_run_summary`: rows with an
unparseable timestamp are kept defensively; parseable ones are kept iff they
are on or after the cutoff. -/
def keepRow (parseTs : String → Option Int) (cutoff : Int) (r : LedgerRow) : Bool :=
  match parseTs r.timestamp with
  | none => true
  | some t => decide (cutoff ≤ t)

/-- Source `_append_run_summary`: load the rows, append the new one, and keep
only rows within `keep_days` of `now` (time measured in seconds,
`cutoff = now - timedelta(days=keep_days)`); `datetime.fromisoformat` is
abstracted as `parseTs`. -/
def appendRunSummary (parseTs : String → Option Int) (keepDays : Int)
    (rows : List LedgerRow) (newRow : LedgerRow) (now : Int) : List LedgerRow :=
  (rows ++ [newRow]).filter (keepRow parseTs (now - keepDays * 86400))

/-- The ledger produced by a sequence of appends (each paired with the clock
value at which it runs), starting from the empty ledger (a missing or
malformed file loads as empty). -/
def ledgerAfter (parseTs : String → Option Int) (keepDays : Int)
    (appends : List (LedgerRow × Int)) : List LedgerRow :=
  appends.foldl (fun acc rn => appendRunSummary parseTs keepDays acc rn.1 rn.2) []

/-- Concrete timestamp parser for the ledger witness. -/
def parseTsEx : String → Option Int :=
  fun s => if s = "t0" then some 0 else if s = "t1" then some 2592001 else none

/-- File-level operations performed while persisting a status document. -/
inductive WriteEvent
  | direct (target : FsPath)
  | tmpWrite (tmp : FsPath)
  | replace (tmp target : FsPath)
deriving DecidableEq, Repr

/-- Outcome of one write attempt inside `_atomic_write_text` (the attempt
either completes, raises `PermissionError`, or raises some other
exception). -/
inductive AttemptOutcome
  | success
  | permissionError
  | otherError
deriving DecidableEq, Repr

/-- Trace of `_atomic_write_text`: completed file operations, the sleeps
performed after failed attempts (in tenths of a second), and whether the last
error was re-raised. -/
structure AtomicWriteResult where
  events : List WriteEvent
  delays : List Nat
  raised : Bool
deriving DecidableEq, Repr

/-- The backoff table `[0.2, 0.5, 1.0]` of `_atomic_write_text`, in tenths of
a second. -/
def permDelays : List Nat := [2, 5, 10]

/-- Attempt loop of `_atomic_write_text`.  A successful attempt writes the
temp file and atomically replaces the target; a failed attempt touches at
most the temp file (never the target directly) and sleeps
`[0.2, 0.5, 1.0][min(i, 2)]` after a `PermissionError`, `0.2` otherwise. -/
def atomicWriteGo (tmp target : FsPath) (oracle : Nat → AttemptOutcome) :
    Nat → Nat → Bool → AtomicWriteResult
  | _, 0, hadErr => AtomicWriteResult.mk [] [] hadErr
  | i, fuel + 1, _ =>
    match oracle i with
    | .success => AtomicWriteResult.mk [.tmpWrite tmp, .replace tmp target] [] false
    | .permissionError =>
      let rest := atomicWriteGo tmp target oracle (i + 1) fuel true
      AtomicWriteResult.mk (.tmpWrite tmp :: rest.events)
        (permDelays.getD (min i 2) 0 :: rest.delays) rest.raised
    | .otherError =>
      let rest := atomicWriteGo tmp target oracle (i + 1) fuel true
      AtomicWriteResult.mk (.tmpWrite tmp :: rest.events) (2 :: rest.delays) rest.raised

/-- Source `_atomic_write_text`: the temp file is
`path.with_suffix(path.suffix + ".tmp")` and the loop makes `retries`
attempts (3 at every call site). -/
def atomicWriteText (path : FsPath) (oracle : Nat → AttemptOutcome) (retries : Nat) :
    AtomicWriteResult :=
  atomicWriteGo (pyWithSuffix path (pySuffix path.name ++ ".tmp".data)) path oracle 0 retries false

/-- File writes performed by `_write_run_status` in `oneclick_daily_run.py`:
`status_path.write_text`, `status_json_path.write_text` (the status path with
suffix `.json`), and the rewrite of `run_summary.csv` — all plain in-place
writes with no temp file, rename or retry. -/
def writeRunStatusEvents (statusPath summaryCsvPath : FsPath) : List WriteEvent :=
  [.direct statusPath, .direct (pyWithSuffix statusPath ".json".data), .direct summaryCsvPath]

/-- Exit of the orchestrator process: normal return (exit status 0),
`SystemExit(n)` with an integer code, or `SystemExit(msg)` with a message
string — which the Python runtime prints and converts to exit status 1. -/
inductive ExitKind
  | ok
  | code (n : Nat)
  | errMsg (msg : String)
deriving DecidableEq, Repr

/-- Exit status of the process for each way `main` can end. -/
def processExitCode : ExitKind → Nat
  | .ok => 0
  | .code n => n
  | .errMsg _ => 1

/-- One `_write_run_status` call: where the TXT record goes (the JSON record
is the same path with suffix `.json`), and its key fields. -/
structure StatusWrite where
  statusPath : FsPath
  result : String
  usedCore : String
  runKey : String
deriving DecidableEq, Repr

/-- Output-path arguments handed to a tier's subprocess by
`_build_daily_args`. -/
structure SubprocCall where
  outputArg : FsPath
  top20Arg : Option FsPath
deriving DecidableEq, Repr

/-- Observable outcome of one `main` invocation: how the process exits, the
status records written, and the fallback invocation if one happened. -/
structure MainResult where
  exit : ExitKind
  statusWrites : List StatusWrite
  fallbackCall : Option SubprocCall
deriving DecidableEq, Repr

/-- Environment of one orchestrator invocation on its normal path (precheck,
dry-run and self-check flags off): the resolved argument values and what the
external world does — script/input existence, subprocess exit codes, file
system snapshots after each tier runs, and the previous status records as
parsed before each tier (the primary subprocess may rewrite the file between
the two reads, hence two fields). -/
structure MainEnv where
  mode : String
  inputPath : FsPath
  outputPathPrimary : FsPath
  top20PathPrimary : Option FsPath
  baseDir : List String
  fallbackDir : List String
  inputExists : Bool
  inputShaRaw : String
  primaryScriptExists : Bool
  fallbackScriptExists : Bool
  primaryRc : Int
  fsAfterPrimary : FileModel
  prevPrimary : PrevStatus
  fallbackRc : Int
  fsAfterFallback : FileModel
  prevFb : PrevStatus

/-- The digest `_sha256_file(input_path)` computed when the input exists, the
empty string otherwise (source line `input_sha256 = ... if ... else ""`). -/
def MainEnv.inputSha (env : MainEnv) : String :=
  if env.inputExists then env.inputShaRaw else ""

/-- The primary script path `base_dir / "daily_auto_run_final.py"`. -/
def MainEnv.primaryScript (env : MainEnv) : FsPath :=
  FsPath.mk env.baseDir "daily_auto_run_final.py".data

/-- The fallback tag constant `"__FALLBACK"`. -/
def fallbackTag : List Char := "__FALLBACK".data

/-- Status record location for an output path:
`output_path.parent / "RUN_STATUS.txt"`. -/
def statusPathFor (outputPath : FsPath) : FsPath :=
  FsPath.mk outputPath.dir "RUN_STATUS.txt".data

/-- The primary run key `_stable_key(mode, input, input_sha256, top20)`. -/
def MainEnv.runKeyPrimary (env : MainEnv) : String :=
  stableKey env.mode env.inputPath env.inputSha env.top20PathPrimary

/-- The tagged fallback output path `_tagged_path(output, "__FALLBACK")`. -/
def MainEnv.outputPathFb (env : MainEnv) : FsPath :=
  taggedPath env.outputPathPrimary fallbackTag

/-- The tagged fallback top20 path, when a top20 path was declared. -/
def MainEnv.top20PathFb (env : MainEnv) : Option FsPath :=
  env.top20PathPrimary.map (fun t => taggedPath t fallbackTag)

/-- The fallback run key, built over the tagged top20 path. -/
def MainEnv.runKeyFb (env : MainEnv) : String :=
  stableKey env.mode env.inputPath env.inputSha env.top20PathFb

/-- Fresh digest of the top20 artifact for the stability check ("" when no
top20 path is declared; the check then never reads it). -/
def topShaOf (fs : FileModel) (top : Option FsPath) : String :=
  match top with
  | some t => sha256File fs t
  | none => ""

/-- Fallback phase of `main` (everything after the FALLBACK banner): missing
fallback script exits 2; otherwise the fallback subprocess runs into tagged
paths; a clean exit with valid outputs goes through the stability check
(`SystemExit(20/21)` on divergence, not caught by the `except Exception`
handler) and writes SUCCESS/FALLBACK; any failure writes FAILED/NONE and
exits 3. -/
def fallbackPhase (env : MainEnv) : MainResult :=
  if env.fallbackScriptExists = false then
    MainResult.mk (.code 2)
      [StatusWrite.mk (statusPathFor env.outputPathPrimary) "FAILED" "NONE" env.runKeyPrimary]
      none
  else if env.fallbackRc = 0 then
    match validateOutputs env.fsAfterFallback env.outputPathFb env.top20PathFb
        requiredOutputCols with
    | .ok _ =>
      match stabilityCompare env.prevFb env.runKeyFb
          (sha256File env.fsAfterFallback env.outputPathFb) env.top20PathFb.isSome
          (topShaOf env.fsAfterFallback env.top20PathFb) with
      | .divergence c =>
        MainResult.mk (.code c)
          [StatusWrite.mk (statusPathFor env.outputPathFb) "FAILED" "FALLBACK" env.runKeyFb]
          (some (SubprocCall.mk env.outputPathFb env.top20PathFb))
      | .ok =>
        MainResult.mk .ok
          [StatusWrite.mk (statusPathFor env.outputPathFb) "SUCCESS" "FALLBACK" env.runKeyFb]
          (some (SubprocCall.mk env.outputPathFb env.top20PathFb))
    | .error _ =>
      MainResult.mk (.code 3)
        [StatusWrite.mk (statusPathFor env.outputPathFb) "FAILED" "NONE" env.runKeyFb]
        (some (SubprocCall.mk env.outputPathFb env.top20PathFb))
  else
    MainResult.mk (.code 3)
      [StatusWrite.mk (statusPathFor env.outputPathFb) "FAILED" "NONE" env.runKeyFb]
      (some (SubprocCall.mk env.outputPathFb env.top20PathFb))

/-- Source `main` on its normal path: a missing primary script writes a
FAILED record and raises `SystemExit(err_string)`; a clean primary exit with
valid outputs goes through the stability check (`SystemExit(20/21)` on
divergence, which the `except Exception` handler does not catch) and then
writes SUCCESS/PRIMARY; a non-zero exit or invalid outputs fall through to
the fallback phase. -/
def mainRun (env : MainEnv) : MainResult :=
  if env.primaryScriptExists = false then
    MainResult.mk (.errMsg ("Primary script not found: " ++ pathStr env.primaryScript))
      [StatusWrite.mk (statusPathFor env.outputPathPrimary) "FAILED" "NONE" env.runKeyPrimary]
      none
  else if env.primaryRc = 0 then
    match validateOutputs env.fsAfterPrimary env.outputPathPrimary env.top20PathPrimary
        requiredOutputCols with
    | .ok _ =>
      match stabilityCompare env.prevPrimary env.runKeyPrimary
          (sha256File env.fsAfterPrimary env.outputPathPrimary) env.top20PathPrimary.isSome
          (topShaOf env.fsAfterPrimary env.top20PathPrimary) with
      | .divergence c =>
        MainResult.mk (.code c)
          [StatusWrite.mk (statusPathFor env.outputPathPrimary) "FAILED" "PRIMARY"
            env.runKeyPrimary]
          none
      | .ok =>
        MainResult.mk .ok
          [StatusWrite.mk (statusPathFor env.outputPathPrimary) "SUCCESS" "PRIMARY"
            env.runKeyPrimary]
          none
    | .error _ => fallbackPhase env
  else fallbackPhase env

/-- CSV header carrying every required output column. -/
def hdrAll : List (Option (List Char)) :=
  [some "code".data, some "market".data, some "close".data, some "trade_value".data,
   some "light_full".data, some "light_decision".data, some "light_top20".data]

/-- Demo environment in which the primary tier fails (rc 1) and the fallback
tier succeeds with a valid tagged output. -/
def envFallbackDemo : MainEnv :=
  MainEnv.mk "pre" (FsPath.mk ["d"] "in.csv".data) (FsPath.mk ["d"] "out.csv".data) none
    ["d"] ["d", "fallback_core"] true "abc1" true true 1
    (fun _ => none) (PrevStatus.mk "" "" "" "") 0
    (fun p => if p = taggedPath (FsPath.mk ["d"] "out.csv".data) fallbackTag
              then some (FileData.mk 9 hdrAll "sha9") else none)
    (PrevStatus.mk "" "" "" "")

/-- Demo environment for the stability divergence: the previous record
carries the same run key, SUCCESS, and output hash `sha0`, while the fresh
primary output hashes to `sha9`. -/
def envDivergenceDemo : MainEnv :=
  MainEnv.mk "pre" (FsPath.mk ["d"] "in.csv".data) (FsPath.mk ["d"] "out.csv".data) none
    ["d"] ["d", "fallback_core"] true "abc1" true true 0
    (fun p => if p = FsPath.mk ["d"] "out.csv".data
              then some (FileData.mk 9 hdrAll "sha9") else none)
    (PrevStatus.mk "pre||d/in.csv||abc1||" "SUCCESS" "sha0" "")
    1 (fun _ => none) (PrevStatus.mk "" "" "" "")

/-- Environment whose primary executable is missing. -/
def envNoPrimary : MainEnv :=
  MainEnv.mk "pre" (FsPath.mk ["d"] "in.csv".data) (FsPath.mk ["d"] "out.csv".data) none
    ["d"] ["d", "fallback_core"] true "abc1" false true 0
    (fun _ => none) (PrevStatus.mk "" "" "" "") 0
    (fun _ => none) (PrevStatus.mk "" "" "" "")

/-- Environment in which both tiers exit 0 but neither writes its output
file, so both attempts fail through the invalid-output route. -/
def envInvalidOutputs : MainEnv :=
  MainEnv.mk "pre" (FsPath.mk ["d"] "in.csv".data) (FsPath.mk ["d"] "out.csv".data) none
    ["d"] ["d", "fallback_core"] true "abc1" true true 0
    (fun _ => none) (PrevStatus.mk "" "" "" "") 0
    (fun _ => none) (PrevStatus.mk "" "" "" "")

theorem pyStem_append_pySuffix (name : List Char) : pyStem name ++ pySuffix name = name := by
  unfold pyStem pySuffix pySplitName
  cases h : rfindChar '.' name with
  | none => simp
  | some i =>
    by_cases hc : 0 < i ∧ i < name.length - 1
    · simp [hc, List.take_append_drop]
    · simp [hc]

theorem taggedPath_dir (p : FsPath) (tag : List Char) : (taggedPath p tag).dir = p.dir := by
  unfold taggedPath
  by_cases h : pySuffix p.name ≠ [] <;> simp [h]

theorem taggedPath_ne (p : FsPath) (tag : List Char) (htag : tag ≠ []) :
    taggedPath p tag ≠ p := by
  have htaglen : 0 < tag.length := List.length_pos.mpr htag
  intro heq
  by_cases h : pySuffix p.name = []
  · have hdef : taggedPath p tag = FsPath.mk p.dir (p.name ++ tag) := by
      unfold taggedPath
      rw [if_neg (by simp [h])]
    rw [hdef] at heq
    have hname : p.name ++ tag = p.name := congrArg FsPath.name heq
    have hlen := congrArg List.length hname
    simp only [List.length_append] at hlen
    omega
  · have hdef : taggedPath p tag = FsPath.mk p.dir (pyStem p.name ++ tag ++ pySuffix p.name) := by
      unfold taggedPath
      rw [if_pos (by simp [h])]
    rw [hdef] at heq
    have hname : pyStem p.name ++ tag ++ pySuffix p.name = p.name := congrArg FsPath.name heq
    have hsplit := congrArg List.length (pyStem_append_pySuffix p.name)
    have hlen := congrArg List.length hname
    simp only [List.length_append] at hsplit hlen
    omega

theorem mem_of_mem_stripSet (p : Char → Bool) (l : List Char) (c : Char)
    (h : c ∈ stripSet p l) : c ∈ l := by
  unfold stripSet at h
  rw [List.mem_reverse] at h
  have h1 : c ∈ (l.dropWhile p).reverse := (List.dropWhile_sublist _).subset h
  rw [List.mem_reverse] at h1
  exact (List.dropWhile_sublist _).subset h1

/-- C10: for every input, the token sanitizer returns a non-empty list of at
most 60 characters in which every character is alphanumeric or one of
`.` `_` `-` (the fixed `NA` fallback makes the alphanumeric hypothesis on
`N` and `A` explicit). -/
theorem sanitize_token_shape (isalnum : Char → Bool) (s : List Char)
    (hN : isalnum 'N' = true) (hA : isalnum 'A' = true) :
    sanitizeToken isalnum 60 s ≠ [] ∧
    (sanitizeToken isalnum 60 s).length ≤ 60 ∧
    ∀ c ∈ sanitizeToken isalnum 60 s, isalnum c = true ∨ c = '.' ∨ c = '_' ∨ c = '-' := by
  unfold sanitizeToken
  by_cases hnil : stripSet dotUnderHyphen
      (s.map (fun ch => if isalnum ch || dotUnderHyphen ch then ch else '_')) = []
  · rw [if_pos hnil]
    have hna : (['N', 'A'] : List Char).take 60 = ['N', 'A'] := rfl
    rw [hna]
    refine ⟨by simp, by simp, ?_⟩
    intro c hc
    simp only [List.mem_cons, List.not_mem_nil, or_false] at hc
    rcases hc with h | h <;> subst h
    · exact Or.inl hN
    · exact Or.inl hA
  · rw [if_neg hnil]
    refine ⟨?_, ?_, ?_⟩
    · cases hsl : stripSet dotUnderHyphen
          (s.map (fun ch => if isalnum ch || dotUnderHyphen ch then ch else '_')) with
      | nil => exact absurd hsl hnil
      | cons a as => simp
    · exact List.length_take_le 60 _
    · intro c hc
      have hct := List.take_subset 60 _ hc
      have hcm := mem_of_mem_stripSet _ _ _ hct
      rw [List.mem_map] at hcm
      obtain ⟨a, _, ha⟩ := hcm
      by_cases hk : isalnum a || dotUnderHyphen a
      · rw [if_pos hk] at ha
        subst ha
        rcases Bool.or_eq_true_iff.mp hk with h | h
        · exact Or.inl h
        · unfold dotUnderHyphen at h
          rcases Bool.or_eq_true_iff.mp h with h2 | h2
          · rcases Bool.or_eq_true_iff.mp h2 with h3 | h3
            · exact Or.inr (Or.inl (by simpa using h3))
            · exact Or.inr (Or.inr (Or.inl (by simpa using h3)))
          · exact Or.inr (Or.inr (Or.inr (by simpa using h2)))
      · rw [if_neg hk] at ha
        exact Or.inr (Or.inr (Or.inl ha.symm))

/-- Witness for `sanitize_token_shape` at a concrete classifier and token. -/
theorem sanitize_token_shape_witness :
    sanitizeToken Char.isAlphanum 60 ("pre mode!".toList) ≠ [] ∧
    (sanitizeToken Char.isAlphanum 60 ("pre mode!".toList)).length ≤ 60 ∧
    ∀ c ∈ sanitizeToken Char.isAlphanum 60 ("pre mode!".toList),
      Char.isAlphanum c = true ∨ c = '.' ∨ c = '_' ∨ c = '-' :=
  sanitize_token_shape Char.isAlphanum ("pre mode!".toList) (by decide) (by decide)

theorem stableKey_sha_inj (mode : String) (p : FsPath) (t : Option FsPath)
    (s1 s2 : String) (h : stableKey mode p s1 t = stableKey mode p s2 t) : s1 = s2 := by
  unfold stableKey at h
  have hd := congrArg String.data h
  simp only [String.data_append, List.append_assoc] at hd
  have h1 := List.append_cancel_left hd
  have h2 := List.append_cancel_left h1
  have h3 := List.append_cancel_left h2
  have h4 := List.append_cancel_left h3
  have h5 := List.append_cancel_right h4
  exact String.ext h5

/-- C8: the run key is a deterministic function of mode, input path, input
content digest and top20 path — byte-identical input always yields the same
key, and (with SHA-256 collision resistance supplied as the hypothesis that
the two digests differ) any change to the input bytes changes the key even
when the path is unchanged.  The digest function is abstracted as `hash`. -/
theorem stable_key_content_sensitivity (hash : List Nat → String) (mode : String)
    (inputPath : FsPath) (top20Path : Option FsPath) (b1 b2 : List Nat) :
    (b1 = b2 →
      stableKey mode inputPath (hash b1) top20Path = stableKey mode inputPath (hash b2) top20Path) ∧
    (hash b1 ≠ hash b2 →
      stableKey mode inputPath (hash b1) top20Path ≠ stableKey mode inputPath (hash b2) top20Path) := by
  constructor
  · intro h
    rw [h]
  · intro hne heq
    exact hne (stableKey_sha_inj _ _ _ _ _ heq)

/-- Witness for `stable_key_content_sensitivity` at a concrete digest
function, input path and pair of byte strings. -/
theorem stable_key_content_sensitivity_witness :
    stableKey "pre" (FsPath.mk [] ['i']) "x0" none
      = stableKey "pre" (FsPath.mk [] ['i']) "x0" none ∧
    stableKey "pre" (FsPath.mk [] ['i']) "x0" none
      ≠ stableKey "pre" (FsPath.mk [] ['i']) "x1" none := by
  have h1 := stable_key_content_sensitivity
    (fun l => if l.length = 0 then "x0" else "x1") "pre" (FsPath.mk [] ['i']) none [] []
  have h2 := stable_key_content_sensitivity
    (fun l => if l.length = 0 then "x0" else "x1") "pre" (FsPath.mk [] ['i']) none [] [7]
  exact ⟨h1.1 rfl, h2.2 (by decide)⟩

theorem stabilityCompare_divergence_code (prev : PrevStatus) (runKey nowOutSha : String)
    (top20Present : Bool) (nowTopSha : String) (c : Nat)
    (h : stabilityCompare prev runKey nowOutSha top20Present nowTopSha = .divergence c) :
    c = 20 ∨ c = 21 := by
  unfold stabilityCompare at h
  split_ifs at h <;> simp_all

/-- C2 (amended): the stability check reports divergence iff the previous
record has the same run key, result SUCCESS, and a non-blank recorded hash
(for the output, or for the top20 when a top20 path is in use) from which the
freshly computed hash differs; with a blank recorded hash it is a no-op. -/
theorem stability_divergence_iff (prev : PrevStatus) (runKey nowOutSha : String)
    (top20Present : Bool) (nowTopSha : String) :
    stabilityCompare prev runKey nowOutSha top20Present nowTopSha ≠ .ok ↔
      prev.run_key = runKey ∧ prev.result = "SUCCESS" ∧
        ((pyStrip prev.output_sha256 ≠ "" ∧ nowOutSha ≠ pyStrip prev.output_sha256) ∨
         (top20Present = true ∧ pyStrip prev.top20_sha256 ≠ "" ∧
           nowTopSha ≠ pyStrip prev.top20_sha256)) := by
  unfold stabilityCompare
  split_ifs with h1 h2 h3 h4 <;> simp_all

/-- Witness for `stability_divergence_iff`: a concrete record with a matching
run key, SUCCESS result and changed output hash is reported as divergence. -/
theorem stability_divergence_iff_witness :
    stabilityCompare (PrevStatus.mk "k" "SUCCESS" "aa" "") "k" "bb" false "" ≠ .ok :=
  (stability_divergence_iff (PrevStatus.mk "k" "SUCCESS" "aa" "") "k" "bb" false "").mpr
    (by decide)

/-- C2 counterexample: a previous record with the same run key and result
SUCCESS but a blank recorded output hash.  The freshly computed hash `d4c3`
differs from the recorded (empty) hash, yet the check is a no-op, refuting
the claimed "divergence if and only if the fresh hash differs from the
recorded one". -/
theorem stability_blank_hash_counterexample :
    (PrevStatus.mk "k" "SUCCESS" "" "").run_key = "k" ∧
    (PrevStatus.mk "k" "SUCCESS" "" "").result = "SUCCESS" ∧
    "d4c3" ≠ (PrevStatus.mk "k" "SUCCESS" "" "").output_sha256 ∧
    stabilityCompare (PrevStatus.mk "k" "SUCCESS" "" "") "k" "d4c3" false "" = .ok := by
  refine ⟨rfl, rfl, by decide, ?_⟩
  decide

/-- C6: validation succeeds iff the output exists and is non-empty, the top20
artifact (when declared) exists and is non-empty, and — when the output has a
`.csv` suffix — every required column appears among the header cells parsed
by `readCsvHeaderCols` (only the header row, whitespace-stripped, with a
byte-order mark dropped from the first cell); the final conjunct exhibits the
byte-order-mark strip concretely. -/
theorem validate_outputs_ok_iff (fs : FileModel) (out : FsPath) (top : Option FsPath)
    (req : List (List Char)) :
    (validateOutputs fs out top req = .ok () ↔
      ∃ d, fs out = some d ∧ 0 < d.size ∧
        (∀ t, top = some t → ∃ d2, fs t = some d2 ∧ 0 < d2.size) ∧
        ((pySuffix out.name).map Char.toLower = ".csv".data →
          ∀ c ∈ req, c ∈ readCsvHeaderCols d.header)) ∧
    readCsvHeaderCols [some ("\uFEFFcode".data)] = ["code".data] := by
  constructor
  · unfold validateOutputs checkOutputsOrRaise assertOutputSchema
    cases hout : fs out with
    | none => simp
    | some d =>
      by_cases hsz : d.size = 0
      · simp [hsz]
      · have hpos : 0 < d.size := Nat.pos_of_ne_zero hsz
        cases top with
        | none =>
          by_cases hcsv : (pySuffix out.name).map Char.toLower ≠ ".csv".data
          · simp [hsz, hcsv, hpos]
          · rw [not_not] at hcsv
            simp only [hsz, if_neg, ite_false, if_pos hcsv]
            by_cases hmiss :
                req.filter (fun c => !decide (c ∈ readCsvHeaderCols d.header)) = []
            · rw [List.filter_eq_nil_iff] at hmiss
              simp only [hcsv]
              simp_all
            · have hmiss2 := hmiss
              rw [List.filter_eq_nil_iff] at hmiss2
              push_neg at hmiss2
              simp only [hcsv]
              simp_all
        | some t =>
          cases htop : fs t with
          | none => simp [hsz, htop]
          | some d2 =>
            by_cases hsz2 : d2.size = 0
            · simp [hsz, hsz2, htop]
            · have hpos2 : 0 < d2.size := Nat.pos_of_ne_zero hsz2
              by_cases hcsv : (pySuffix out.name).map Char.toLower ≠ ".csv".data
              · simp [hsz, hsz2, hcsv, hpos, hpos2, htop]
              · rw [not_not] at hcsv
                simp only [hsz, hsz2, if_neg, ite_false, if_pos hcsv]
                by_cases hmiss :
                    req.filter (fun c => !decide (c ∈ readCsvHeaderCols d.header)) = []
                · rw [List.filter_eq_nil_iff] at hmiss
                  simp only [hcsv]
                  simp_all
                · have hmiss2 := hmiss
                  rw [List.filter_eq_nil_iff] at hmiss2
                  push_neg at hmiss2
                  simp only [hcsv]
                  simp_all
  · decide

theorem keepRow_mono (parseTs : String → Option Int) (c1 c2 : Int) (h : c1 ≤ c2)
    (r : LedgerRow) (hk : keepRow parseTs c2 r = true) : keepRow parseTs c1 r = true := by
  unfold keepRow at hk ⊢
  cases hp : parseTs r.timestamp with
  | none => rfl
  | some t =>
    rw [hp] at hk
    simp only [decide_eq_true_eq] at hk ⊢
    omega

theorem filter_keep_absorb (parseTs : String → Option Int) (c1 c2 : Int) (h : c1 ≤ c2)
    (l : List LedgerRow) :
    (l.filter (keepRow parseTs c1)).filter (keepRow parseTs c2)
      = l.filter (keepRow parseTs c2) := by
  rw [List.filter_filter]
  apply List.filter_congr
  intro a _
  cases hk : keepRow parseTs c2 a
  · simp
  · simp [keepRow_mono parseTs c1 c2 h a hk]

theorem ledgerAfter_concat (parseTs : String → Option Int) (keepDays : Int)
    (xs : List (LedgerRow × Int)) (x : LedgerRow × Int) :
    ledgerAfter parseTs keepDays (xs ++ [x]) =
      appendRunSummary parseTs keepDays (ledgerAfter parseTs keepDays xs) x.1 x.2 := by
  unfold ledgerAfter
  rw [List.foldl_append]
  rfl

/-- C7: after any sequence of appends at nondecreasing clock values, the
ledger holds exactly the appended rows, in order, filtered to those whose
timestamp is unparseable (kept defensively) or within the retention window
(`keep_days`, 30 at the call site) of the clock of the latest append. -/
theorem run_ledger_retention (parseTs : String → Option Int) (keepDays : Int)
    (appends : List (LedgerRow × Int)) (lastApp : LedgerRow × Int)
    (hlast : appends.getLast? = some lastApp)
    (hmono : List.Chain' (fun a b => a.2 ≤ b.2) appends) :
    ledgerAfter parseTs keepDays appends =
      (appends.map Prod.fst).filter (keepRow parseTs (lastApp.2 - keepDays * 86400)) := by
  induction appends using List.reverseRecOn generalizing lastApp with
  | nil => simp at hlast
  | append_singleton xs x ih =>
    have hx : x = lastApp := by simpa using hlast
    subst hx
    rw [ledgerAfter_concat]
    rcases eq_or_ne xs [] with hxs | hxs
    · subst hxs
      simp [ledgerAfter, appendRunSummary]
    · obtain ⟨y, hy⟩ : ∃ y, xs.getLast? = some y := by
        cases hgl : xs.getLast? with
        | none => exact absurd (List.getLast?_eq_none_iff.mp hgl) hxs
        | some y => exact ⟨y, rfl⟩
      have hchain := List.chain'_append.mp hmono
      have hyx : y.2 ≤ x.2 := by
        refine hchain.2.2 y ?_ x ?_
        · simp [hy]
        · simp
      rw [ih y hy hchain.1]
      unfold appendRunSummary
      rw [List.filter_append, filter_keep_absorb parseTs _ _ (by omega)]
      simp [List.filter_append]

/-- Witness for `run_ledger_retention`: three appends with increasing clocks;
the first row ages out of the 30-day window, the second stays, and the row
with an unparseable timestamp is kept. -/
theorem run_ledger_retention_witness :
    ledgerAfter parseTsEx 30
      [(LedgerRow.mk "t0" [], 0), (LedgerRow.mk "t1" [], 2592001),
       (LedgerRow.mk "bad" [], 2592002)] =
      [LedgerRow.mk "t1" [], LedgerRow.mk "bad" []] := by
  have h := run_ledger_retention parseTsEx 30
    [(LedgerRow.mk "t0" [], 0), (LedgerRow.mk "t1" [], 2592001),
     (LedgerRow.mk "bad" [], 2592002)]
    (LedgerRow.mk "bad" [], 2592002) (by rfl)
    (by norm_num [List.chain'_cons, List.chain'_singleton])
  rw [h]
  decide

theorem atomicWriteGo_events (tmp target : FsPath) (oracle : Nat → AttemptOutcome) :
    ∀ (fuel i : Nat) (b : Bool) (e : WriteEvent),
      e ∈ (atomicWriteGo tmp target oracle i fuel b).events →
      e = .tmpWrite tmp ∨ e = .replace tmp target := by
  intro fuel
  induction fuel with
  | zero =>
    intro i b e he
    simp [atomicWriteGo] at he
  | succ f ih =>
    intro i b e he
    unfold atomicWriteGo at he
    cases ho : oracle i with
    | success =>
      rw [ho] at he
      simp only [List.mem_cons, List.not_mem_nil, or_false] at he
      tauto
    | permissionError =>
      rw [ho] at he
      simp only [List.mem_cons] at he
      rcases he with h | h
      · exact Or.inl h
      · exact ih (i + 1) true e h
    | otherError =>
      rw [ho] at he
      simp only [List.mem_cons] at he
      rcases he with h | h
      · exact Or.inl h
      · exact ih (i + 1) true e h

theorem atomicWriteGo_delays_len (tmp target : FsPath) (oracle : Nat → AttemptOutcome) :
    ∀ (fuel i : Nat) (b : Bool),
      (atomicWriteGo tmp target oracle i fuel b).delays.length ≤ fuel := by
  intro fuel
  induction fuel with
  | zero =>
    intro i b
    simp [atomicWriteGo]
  | succ f ih =>
    intro i b
    unfold atomicWriteGo
    cases ho : oracle i <;> simp [List.length_cons]
    · exact ih (i + 1) true
    · exact ih (i + 1) true

theorem pyWithSuffix_dir (p : FsPath) (suf : List Char) : (pyWithSuffix p suf).dir = p.dir :=
  rfl

/-- C4 (amended): the pipeline-status writer `_atomic_write_text` installs the
final file only via an atomic replace from a temp file in the same directory,
makes at most 3 attempts (raising after 3 failures) with the increasing
backoff 0.2/0.5/1.0s under persistent lock contention; the run-status writer
`_write_run_status` of `oneclick_daily_run.py` instead writes its documents
directly in place with no temp file, rename or retry. -/
theorem atomic_status_write_amended (path : FsPath) (oracle : Nat → AttemptOutcome)
    (statusPath summaryCsvPath : FsPath) :
    (∀ e ∈ (atomicWriteText path oracle 3).events, ∀ q, e ≠ .direct q) ∧
    (∀ e ∈ (atomicWriteText path oracle 3).events, ∀ tmp tgt, e = .replace tmp tgt →
      tgt = path ∧ tmp.dir = path.dir) ∧
    (atomicWriteText path oracle 3).delays.length ≤ 3 ∧
    ((∀ i, i < 3 → oracle i ≠ .success) → (atomicWriteText path oracle 3).raised = true) ∧
    ((∀ i, oracle i = .permissionError) → (atomicWriteText path oracle 3).delays = [2, 5, 10]) ∧
    ((writeRunStatusEvents statusPath summaryCsvPath).all
      (fun e => match e with | .direct _ => true | _ => false) = true) := by
  refine ⟨?_, ?_, ?_, ?_, ?_, ?_⟩
  · intro e he q
    rcases atomicWriteGo_events _ _ _ _ _ _ _ he with h | h <;> subst h <;> simp
  · intro e he tmp tgt hrep
    rcases atomicWriteGo_events _ _ _ _ _ _ _ he with h | h
    · rw [h] at hrep
      exact absurd hrep (by simp)
    · rw [h] at hrep
      have h1 : tmp = pyWithSuffix path (pySuffix path.name ++ ".tmp".data) := by
        exact (WriteEvent.replace.injEq _ _ _ _).mp hrep.symm |>.1
      have h2 : tgt = path := by
        exact (WriteEvent.replace.injEq _ _ _ _).mp hrep.symm |>.2
      exact ⟨h2, by rw [h1]; exact pyWithSuffix_dir path _⟩
  · exact atomicWriteGo_delays_len _ _ _ 3 0 false
  · intro h
    have h0 := h 0 (by omega)
    have h1 := h 1 (by omega)
    have h2 := h 2 (by omega)
    unfold atomicWriteText
    cases e0 : oracle 0 <;> cases e1 : oracle 1 <;> cases e2 : oracle 2 <;>
      simp [atomicWriteGo, e0, e1, e2] <;> simp_all
  · intro h
    have e0 := h 0
    have e1 := h 1
    have e2 := h 2
    unfold atomicWriteText
    simp [atomicWriteGo, e0, e1, e2, permDelays]
  · rfl

/-- C4 counterexample: at a concrete status location the oneclick status
writer performs a plain in-place write of `RUN_STATUS.txt` and performs no
rename/replace at all, so the claimed temp-file-plus-rename atomicity fails
for these current-status documents. -/
theorem write_run_status_direct_counterexample :
    (writeRunStatusEvents (FsPath.mk ["runs"] "RUN_STATUS.txt".data)
        (FsPath.mk ["base"] "run_summary.csv".data)).contains
      (WriteEvent.direct (FsPath.mk ["runs"] "RUN_STATUS.txt".data)) = true ∧
    (writeRunStatusEvents (FsPath.mk ["runs"] "RUN_STATUS.txt".data)
        (FsPath.mk ["base"] "run_summary.csv".data)).all
      (fun e => match e with | .replace _ _ => false | _ => true) = true := by
  constructor
  · decide
  · decide

/-- Witness for `atomic_status_write_amended` at a concrete path and an
oracle whose first attempt hits a `PermissionError` and whose second
succeeds. -/
theorem atomic_status_write_amended_witness :
    (atomicWriteText (FsPath.mk ["runs"] "PIPELINE_STATUS.json".data)
      (fun i => if i = 0 then .permissionError else .success) 3).delays.length ≤ 3 := by
  have h := atomic_status_write_amended (FsPath.mk ["runs"] "PIPELINE_STATUS.json".data)
    (fun i => if i = 0 then .permissionError else .success)
    (FsPath.mk ["runs"] "RUN_STATUS.txt".data) (FsPath.mk ["base"] "run_summary.csv".data)
  exact h.2.2.1

theorem statusPathFor_tagged (p : FsPath) (tag : List Char) :
    statusPathFor (taggedPath p tag) = statusPathFor p := by
  unfold statusPathFor
  rw [taggedPath_dir]

theorem fallbackPhase_writes_loc (env : MainEnv) :
    ∀ w ∈ (fallbackPhase env).statusWrites,
      w.statusPath = statusPathFor env.outputPathPrimary := by
  intro w hw
  have hfb : statusPathFor env.outputPathFb = statusPathFor env.outputPathPrimary := by
    unfold MainEnv.outputPathFb
    exact statusPathFor_tagged _ _
  unfold fallbackPhase at hw
  repeat' split at hw
  all_goals simp only [List.mem_singleton] at hw
  all_goals subst hw
  all_goals simp [hfb]

/-- C1 (amended): every status record any run writes — primary, fallback, or
failure — goes to the same location `output_dir / RUN_STATUS.txt`: the tag is
applied only to the artifact file name, not its directory, so a fallback run
does overwrite the primary run's status record. -/
theorem status_writes_single_location (env : MainEnv) :
    ∀ w ∈ (mainRun env).statusWrites,
      w.statusPath = statusPathFor env.outputPathPrimary := by
  intro w hw
  unfold mainRun at hw
  repeat' split at hw
  all_goals first
    | exact fallbackPhase_writes_loc env w hw
    | (simp only [List.mem_singleton] at hw; subst hw; rfl)

/-- C1 counterexample: in `envFallbackDemo` the fallback tier runs and its
SUCCESS record is written exactly to the primary status location
`d/RUN_STATUS.txt` — not to a different location as claimed. -/
theorem fallback_status_overwrite_counterexample :
    (mainRun envFallbackDemo).fallbackCall.isSome = true ∧
    ((mainRun envFallbackDemo).statusWrites.map StatusWrite.statusPath)
      = [statusPathFor envFallbackDemo.outputPathPrimary] ∧
    ((mainRun envFallbackDemo).statusWrites.map StatusWrite.usedCore) = ["FALLBACK"] ∧
    ((mainRun envFallbackDemo).statusWrites.map StatusWrite.result) = ["SUCCESS"] := by
  refine ⟨rfl, rfl, rfl, rfl⟩

/-- Witness for `status_writes_single_location`: the concrete fallback
record written in `envFallbackDemo` is located at the primary status path. -/
theorem status_writes_single_location_witness :
    (StatusWrite.mk (statusPathFor envFallbackDemo.outputPathFb) "SUCCESS" "FALLBACK"
        envFallbackDemo.runKeyFb).statusPath
      = statusPathFor envFallbackDemo.outputPathPrimary :=
  status_writes_single_location envFallbackDemo
    (StatusWrite.mk (statusPathFor envFallbackDemo.outputPathFb) "SUCCESS" "FALLBACK"
      envFallbackDemo.runKeyFb) (by decide)

/-- C3: when the stability check on a clean, valid primary attempt reports a
divergence, the orchestrator writes a single FAILED/PRIMARY record at the
primary status location, never invokes the fallback tier, and terminates with
exit code 20 or 21 — codes distinct from the ordinary failure codes. -/
theorem primary_divergence_no_fallback (env : MainEnv) (c : Nat)
    (hps : env.primaryScriptExists = true)
    (hrc : env.primaryRc = 0)
    (hval : validateOutputs env.fsAfterPrimary env.outputPathPrimary env.top20PathPrimary
      requiredOutputCols = .ok ())
    (hstab : stabilityCompare env.prevPrimary env.runKeyPrimary
      (sha256File env.fsAfterPrimary env.outputPathPrimary) env.top20PathPrimary.isSome
      (topShaOf env.fsAfterPrimary env.top20PathPrimary) = .divergence c) :
    mainRun env = MainResult.mk (.code c)
        [StatusWrite.mk (statusPathFor env.outputPathPrimary) "FAILED" "PRIMARY"
          env.runKeyPrimary] none ∧
    (c = 20 ∨ c = 21) ∧ c ≠ 0 ∧ c ≠ 1 ∧ c ≠ 2 ∧ c ≠ 3 := by
  have hcode := stabilityCompare_divergence_code _ _ _ _ _ _ hstab
  refine ⟨?_, hcode, by omega, by omega, by omega, by omega⟩
  unfold mainRun
  rw [if_neg (by simp [hps]), if_pos hrc, hval, hstab]

/-- Witness for `primary_divergence_no_fallback` at the concrete divergence
environment (output-hash divergence, exit code 20). -/
theorem primary_divergence_no_fallback_witness :
    mainRun envDivergenceDemo = MainResult.mk (.code 20)
      [StatusWrite.mk (statusPathFor envDivergenceDemo.outputPathPrimary) "FAILED" "PRIMARY"
        envDivergenceDemo.runKeyPrimary] none :=
  (primary_divergence_no_fallback envDivergenceDemo 20 rfl rfl (by rfl) (by rfl)).1

theorem mainRun_fallback (env : MainEnv) (hps : env.primaryScriptExists = true)
    (hpf : env.primaryRc ≠ 0 ∨
      validateOutputs env.fsAfterPrimary env.outputPathPrimary env.top20PathPrimary
        requiredOutputCols ≠ .ok ()) :
    mainRun env = fallbackPhase env := by
  unfold mainRun
  rw [if_neg (by simp [hps])]
  by_cases hrc : env.primaryRc = 0
  · rw [if_pos hrc]
    cases hv : validateOutputs env.fsAfterPrimary env.outputPathPrimary env.top20PathPrimary
        requiredOutputCols with
    | ok u =>
      cases u
      rcases hpf with h | h
      · exact absurd hrc h
      · exact absurd hv h
    | error e => rfl
  · rw [if_neg hrc]

/-- C5 (amended): exit behaviour of the orchestrator on its normal path —
0 when either tier succeeds; a `SystemExit` with a message string (process
exit status 1, not 2) when the primary executable is missing; 2 when the
fallback executable is missing after a primary failure; 3 when both attempts
fail, where an attempt fails either by exiting non-zero or by exiting 0 with
invalid outputs (lines 723-726 and 822-846).  No path inspects the input
file's existence directly: a missing input flows into an ordinary primary
failure. -/
theorem orchestrator_exit_codes (env : MainEnv) :
    (env.primaryScriptExists = false →
      (mainRun env).exit
          = .errMsg ("Primary script not found: " ++ pathStr env.primaryScript) ∧
      processExitCode (mainRun env).exit = 1) ∧
    (env.primaryScriptExists = true →
      (env.primaryRc ≠ 0 ∨
        validateOutputs env.fsAfterPrimary env.outputPathPrimary env.top20PathPrimary
          requiredOutputCols ≠ .ok ()) →
      env.fallbackScriptExists = false →
      (mainRun env).exit = .code 2) ∧
    (env.primaryScriptExists = true →
      (env.primaryRc ≠ 0 ∨
        validateOutputs env.fsAfterPrimary env.outputPathPrimary env.top20PathPrimary
          requiredOutputCols ≠ .ok ()) →
      env.fallbackScriptExists = true →
      (env.fallbackRc ≠ 0 ∨
        validateOutputs env.fsAfterFallback env.outputPathFb env.top20PathFb
          requiredOutputCols ≠ .ok ()) →
      (mainRun env).exit = .code 3) ∧
    (env.primaryScriptExists = true → env.primaryRc = 0 →
      validateOutputs env.fsAfterPrimary env.outputPathPrimary env.top20PathPrimary
        requiredOutputCols = .ok () →
      stabilityCompare env.prevPrimary env.runKeyPrimary
        (sha256File env.fsAfterPrimary env.outputPathPrimary) env.top20PathPrimary.isSome
        (topShaOf env.fsAfterPrimary env.top20PathPrimary) = .ok →
      (mainRun env).exit = .ok ∧ processExitCode (mainRun env).exit = 0) ∧
    (env.primaryScriptExists = true →
      (env.primaryRc ≠ 0 ∨
        validateOutputs env.fsAfterPrimary env.outputPathPrimary env.top20PathPrimary
          requiredOutputCols ≠ .ok ()) →
      env.fallbackScriptExists = true →
      env.fallbackRc = 0 →
      validateOutputs env.fsAfterFallback env.outputPathFb env.top20PathFb
        requiredOutputCols = .ok () →
      stabilityCompare env.prevFb env.runKeyFb
        (sha256File env.fsAfterFallback env.outputPathFb) env.top20PathFb.isSome
        (topShaOf env.fsAfterFallback env.top20PathFb) = .ok →
      (mainRun env).exit = .ok) := by
  refine ⟨?_, ?_, ?_, ?_, ?_⟩
  · intro h
    unfold mainRun
    rw [if_pos h]
    exact ⟨rfl, rfl⟩
  · intro h1 hpf h3
    rw [mainRun_fallback env h1 hpf]
    unfold fallbackPhase
    rw [if_pos h3]
  · intro h1 hpf h3 hff
    rw [mainRun_fallback env h1 hpf]
    unfold fallbackPhase
    rw [if_neg (by simp [h3])]
    by_cases hfrc : env.fallbackRc = 0
    · rw [if_pos hfrc]
      cases hv2 : validateOutputs env.fsAfterFallback env.outputPathFb env.top20PathFb
          requiredOutputCols with
      | ok u =>
        cases u
        rcases hff with h | h
        · exact absurd hfrc h
        · exact absurd hv2 h
      | error e => rfl
    · rw [if_neg hfrc]
  · intro h1 h2 hval hstab
    unfold mainRun
    rw [if_neg (by simp [h1]), if_pos h2, hval, hstab]
    exact ⟨rfl, rfl⟩
  · intro h1 hpf h3 h4 hval hstab
    rw [mainRun_fallback env h1 hpf]
    unfold fallbackPhase
    rw [if_neg (by simp [h3]), if_pos h4, hval, hstab]

/-- C5 counterexample: with the primary executable missing, the orchestrator
raises `SystemExit` with a message string, whose process exit status is 1,
not the claimed 2. -/
theorem missing_primary_exit_code_counterexample :
    envNoPrimary.primaryScriptExists = false ∧
    processExitCode (mainRun envNoPrimary).exit = 1 ∧
    processExitCode (mainRun envNoPrimary).exit ≠ 2 := by
  refine ⟨rfl, rfl, by decide⟩

/-- Witness for `orchestrator_exit_codes`: exit status 1 at the
missing-primary environment, and exit code 3 when both tiers exit 0 but fail
through the invalid-output route. -/
theorem orchestrator_exit_codes_witness :
    processExitCode (mainRun envNoPrimary).exit = 1 ∧
    (mainRun envInvalidOutputs).exit = .code 3 :=
  ⟨((orchestrator_exit_codes envNoPrimary).1 rfl).2,
   (orchestrator_exit_codes envInvalidOutputs).2.2.1 rfl
     (Or.inr (fun h => nomatch h)) rfl (Or.inr (fun h => nomatch h))⟩

/-- C9: the tagged fallback path differs from the original for every path,
and when the primary attempt fails the fallback subprocess is invoked with
exactly the tagged output and top20 paths — never with the primary paths. -/
theorem fallback_tagged_paths (env : MainEnv)
    (hps : env.primaryScriptExists = true) (hrc : env.primaryRc ≠ 0)
    (hfb : env.fallbackScriptExists = true) :
    (∀ p : FsPath, taggedPath p fallbackTag ≠ p) ∧
    (mainRun env).fallbackCall = some (SubprocCall.mk env.outputPathFb env.top20PathFb) ∧
    env.outputPathFb = taggedPath env.outputPathPrimary fallbackTag ∧
    env.outputPathFb ≠ env.outputPathPrimary ∧
    (∀ t, env.top20PathPrimary = some t →
      env.top20PathFb = some (taggedPath t fallbackTag) ∧ taggedPath t fallbackTag ≠ t) := by
  refine ⟨?_, ?_, rfl, ?_, ?_⟩
  · intro p
    exact taggedPath_ne p fallbackTag (by decide)
  · unfold mainRun fallbackPhase
    rw [if_neg (by simp [hps]), if_neg hrc, if_neg (by simp [hfb])]
    by_cases h0 : env.fallbackRc = 0
    · rw [if_pos h0]
      cases hv : validateOutputs env.fsAfterFallback env.outputPathFb env.top20PathFb
          requiredOutputCols with
      | ok u =>
        cases u
        cases hs : stabilityCompare env.prevFb env.runKeyFb
            (sha256File env.fsAfterFallback env.outputPathFb) env.top20PathFb.isSome
            (topShaOf env.fsAfterFallback env.top20PathFb) with
        | ok => rfl
        | divergence c => rfl
      | error e => rfl
    · rw [if_neg h0]
  · exact taggedPath_ne env.outputPathPrimary fallbackTag (by decide)
  · intro t ht
    constructor
    · unfold MainEnv.top20PathFb
      rw [ht]
      rfl
    · exact taggedPath_ne t fallbackTag (by decide)

/-- Witness for `fallback_tagged_paths` at the concrete fallback-success
environment. -/
theorem fallback_tagged_paths_witness :
    (mainRun envFallbackDemo).fallbackCall
      = some (SubprocCall.mk envFallbackDemo.outputPathFb envFallbackDemo.top20PathFb) ∧
    envFallbackDemo.outputPathFb ≠ envFallbackDemo.outputPathPrimary := by
  have h := fallback_tagged_paths envFallbackDemo rfl (by decide) rfl
  exact ⟨h.2.1, h.2.2.2.1⟩

/-- Witness for `validate_outputs_ok_iff`: a concrete CSV output of 9 bytes
whose header carries every required column validates successfully. -/
theorem validate_outputs_ok_iff_witness :
    validateOutputs
      (fun p => if p = FsPath.mk ["d"] "out.csv".data
                then some (FileData.mk 9 hdrAll "s") else none)
      (FsPath.mk ["d"] "out.csv".data) none requiredOutputCols = .ok () := by
  have h := validate_outputs_ok_iff
    (fun p => if p = FsPath.mk ["d"] "out.csv".data
              then some (FileData.mk 9 hdrAll "s") else none)
    (FsPath.mk ["d"] "out.csv".data) none requiredOutputCols
  refine h.1.mpr ⟨FileData.mk 9 hdrAll "s", rfl, by decide, ?_, by decide⟩
  intro t ht
  cases ht

end Oneclick
